import Mathlib

/-!
temp_driver: error catalog, error queue and calibration model.

A shallow embedding of the control-and-safety layer of the AD9106 driver
firmware (`error_table.h`, `global_error.h`, `model.h`) together with the
properties proved about it.

Conventions of the embedding:

* C `int` values are `Int`; C integer division and remainder truncate toward
  zero, so they are `Int.tdiv` and `Int.tmod`.
* `float` values are rationals: all floating-point results are the exact ones.
* A read through a table pointer is an `Option`: `none` stands for a read
  outside the table.
-/

namespace TempDriver

/-! ## `error_table.h` -/

def SCPI_PRIORITY : Int := 1

def GENERIC_PRIORITY : Int := 2

def AD9106_PRIORITY : Int := 3

/-- The `GenericError` enumeration. -/
inductive GenericError where
  | NoError
  | TooManyParams
  | TooFewParams
  | UnknownParam
  | ParamOutOfRange
  | BadSuffix
  deriving DecidableEq, Repr

/-- The integer value each `GenericError` enumerator is declared with. -/
def GenericError.toInt : GenericError → Int
  | .NoError => 0
  | .TooManyParams => 201
  | .TooFewParams => 202
  | .UnknownParam => 203
  | .ParamOutOfRange => 204
  | .BadSuffix => 205

/-- Modelled from the spec: the protocol parser's fault enumeration
`SCPI_Parser::ErrorCode`, declared in the parser library and not in this
repository. The three enumerators that `get_error_code` names are kept apart;
`Unlisted raw` is any other value of the type. -/
inductive SCPIErrorCode where
  | UnknownCommand
  | Timeout
  | BufferOverflow
  | Unlisted (raw : Nat)
  deriving DecidableEq, Repr

/-- Modelled from the spec: the hardware driver's fault enumeration
`AD9106::ErrorCode`, declared in the chip library and not in this repository.
`NO_ERROR` and the six enumerators that `get_error_code` names are kept apart;
`Unlisted raw` is any other value of the type. -/
inductive AD9106ErrorCode where
  | NO_ERROR
  | MEM_READ_ERR
  | ODD_ADDR_ERR
  | PERIOD_SHORT_ERR
  | DOUT_START_SHORT_ERR
  | PAT_DLY_SHORT_ERR
  | DOUT_START_LG_ERR
  | Unlisted (raw : Nat)
  deriving DecidableEq, Repr

def gen_error_0 : String := "No Error"
def gen_error_1 : String := "Too many Params"
def gen_error_2 : String := "Too few Params"
def gen_error_3 : String := "Unknown Param"
def gen_error_4 : String := "Out of Range"
def gen_error_5 : String := "Bad Channel Num"

def scpi_error_1 : String := "Unknown Cmd"
def scpi_error_2 : String := "Timeout"
def scpi_error_3 : String := "Buffer Ovf"

def ad9106_error_1 : String := "Mem Read Fail"
def ad9106_error_2 : String := "Odd Addr Err"
def ad9106_error_3 : String := "Short Period"
def ad9106_error_4 : String := "Short DOUT"
def ad9106_error_5 : String := "Short Pat Dly"
def ad9106_error_6 : String := "Large DOUT"

def gen_error_table : List String :=
  [gen_error_0, gen_error_1, gen_error_2, gen_error_3, gen_error_4, gen_error_5]

def scpi_error_table : List String :=
  [scpi_error_1, scpi_error_2, scpi_error_3]

def ad9106_error_table : List String :=
  [ad9106_error_1, ad9106_error_2, ad9106_error_3,
   ad9106_error_4, ad9106_error_5, ad9106_error_6]

/-- The overload `get_error_code(SCPI_Parser::ErrorCode)`. -/
def SCPIErrorCode.get_error_code (errorCode : SCPIErrorCode) : Int :=
  match errorCode with
  | .UnknownCommand => 100 * SCPI_PRIORITY + 1
  | .Timeout => 100 * SCPI_PRIORITY + 2
  | .BufferOverflow => 100 * SCPI_PRIORITY + 3
  | .Unlisted _ => 0

/-- The overload `get_error_code(GenericError)`. Every enumerator has a `case`
that assigns `code` and breaks, so every one reaches the final
`return 100 * GENERIC_PRIORITY + code`. -/
def GenericError.get_error_code (errorCode : GenericError) : Int :=
  let code : Int :=
    match errorCode with
    | .NoError => 0
    | .TooManyParams => 1
    | .TooFewParams => 2
    | .UnknownParam => 3
    | .ParamOutOfRange => 4
    | .BadSuffix => 5
  100 * GENERIC_PRIORITY + code

/-- The overload `get_error_code(AD9106::ErrorCode)`. -/
def AD9106ErrorCode.get_error_code (errorCode : AD9106ErrorCode) : Int :=
  match errorCode with
  | .MEM_READ_ERR => 100 * AD9106_PRIORITY + 1
  | .ODD_ADDR_ERR => 100 * AD9106_PRIORITY + 2
  | .PERIOD_SHORT_ERR => 100 * AD9106_PRIORITY + 3
  | .DOUT_START_SHORT_ERR => 100 * AD9106_PRIORITY + 4
  | .PAT_DLY_SHORT_ERR => 100 * AD9106_PRIORITY + 5
  | .DOUT_START_LG_ERR => 100 * AD9106_PRIORITY + 6
  | .NO_ERROR => 0
  | .Unlisted _ => 0

/-- A fault of any of the three subsystems: the argument types for which
`get_error_code` (and with it the template `set_error`) is defined. -/
inductive Fault where
  | scpi (e : SCPIErrorCode)
  | generic (e : GenericError)
  | ad9106 (e : AD9106ErrorCode)
  deriving DecidableEq, Repr

/-- Overload resolution of `get_error_code` on the type of its argument. -/
def get_error_code : Fault → Int
  | .scpi e => e.get_error_code
  | .generic e => e.get_error_code
  | .ad9106 e => e.get_error_code

/-- The read `pgm_read_ptr(&table[i])`: the entry at `i`, or `none` when `i`
is outside the table. -/
def pgm_read_ptr (table : List String) (i : Int) : Option String :=
  if 0 ≤ i then table[i.toNat]? else none

/-- The function `get_error_ptr`: the message a code decodes to. A code whose
table number is none of the three priorities leaves `ptr` unset (`none`). -/
def get_error_ptr (errorCode : Int) : Option String :=
  if errorCode = 0 then
    pgm_read_ptr gen_error_table 0
  else
    let table := errorCode.tdiv 100
    let index := errorCode.tmod 100
    if table = SCPI_PRIORITY then
      pgm_read_ptr scpi_error_table (index - 1)
    else if table = GENERIC_PRIORITY then
      pgm_read_ptr gen_error_table index
    else if table = AD9106_PRIORITY then
      pgm_read_ptr ad9106_error_table (index - 1)
    else
      none

/-! ### The catalog as the specification describes it -/

/-- Whether the catalog maps the fault: the 3 protocol-layer, 5 generic
validation and 6 hardware-driver faults that own a message. -/
def Fault.mapped : Fault → Bool
  | .scpi (.Unlisted _) => false
  | .generic .NoError => false
  | .ad9106 .NO_ERROR => false
  | .ad9106 (.Unlisted _) => false
  | _ => true

/-- The priority of the subsystem a fault belongs to. -/
def Fault.priority : Fault → Int
  | .scpi _ => SCPI_PRIORITY
  | .generic _ => GENERIC_PRIORITY
  | .ad9106 _ => AD9106_PRIORITY

/-- The message table of the subsystem a fault belongs to, without the
"No Error" entry that heads the generic table: entry `k` (1-based) is the
message of the subsystem's fault number `k`. -/
def Fault.messages : Fault → List String
  | .scpi _ => scpi_error_table
  | .generic _ => gen_error_table.tail
  | .ad9106 _ => ad9106_error_table

/-- The 1-based position of a mapped fault in its subsystem's fault list
(0 for a fault the catalog does not map). -/
def Fault.tableIndex : Fault → Nat
  | .scpi .UnknownCommand => 1
  | .scpi .Timeout => 2
  | .scpi .BufferOverflow => 3
  | .scpi (.Unlisted _) => 0
  | .generic e => (e.toInt % 100).toNat
  | .ad9106 .MEM_READ_ERR => 1
  | .ad9106 .ODD_ADDR_ERR => 2
  | .ad9106 .PERIOD_SHORT_ERR => 3
  | .ad9106 .DOUT_START_SHORT_ERR => 4
  | .ad9106 .PAT_DLY_SHORT_ERR => 5
  | .ad9106 .DOUT_START_LG_ERR => 6
  | .ad9106 .NO_ERROR => 0
  | .ad9106 (.Unlisted _) => 0

/-! ## `global_error.h` -/

def MAX_BUFFER_SIZE : Int := 5

/-- The private state of `GlobalError`. The array `error_buffer` is a map
from indices to cells; the properties below show that only the cells
`0 .. 4` are ever touched. -/
structure GlobalError where
  error_buffer : Int → Int
  buffer_size : Int
  write_indx : Int

namespace GlobalError

/-- The constructor: `buffer_size = 0`, `write_indx = 0`; the array is not
initialised, so its initial contents `mem` are arbitrary. -/
def init (mem : Int → Int) : GlobalError :=
  { error_buffer := mem, buffer_size := 0, write_indx := 0 }

def is_error (s : GlobalError) : Bool :=
  !(s.buffer_size == 0)

/-- The index `last_indx` that `get_error` reads on a non-empty queue. -/
def last_indx (s : GlobalError) : Int :=
  (s.write_indx - 1 + MAX_BUFFER_SIZE).tmod MAX_BUFFER_SIZE

/-- The method `get_error(read)`: the returned code and the state after. -/
def get_error (read : Bool) (s : GlobalError) : Int × GlobalError :=
  if s.buffer_size = 0 then
    (0, s)
  else
    let last_error := s.error_buffer s.last_indx
    if !read then
      (last_error, { s with write_indx := s.last_indx, buffer_size := s.buffer_size - 1 })
    else
      (last_error, s)

/-- The method `set_error(errorCode)` on the queue. The `ErrorHandler` it
calls last is a `void (*)()` bound at construction, with no access to the
private fields; its effect lies outside the queue and is left out here. -/
def set_error (errorCode : Fault) (s : GlobalError) : GlobalError :=
  let code := get_error_code errorCode
  { error_buffer := Function.update s.error_buffer s.write_indx code
    write_indx := (s.write_indx + 1).tmod MAX_BUFFER_SIZE
    buffer_size := if s.buffer_size < MAX_BUFFER_SIZE then s.buffer_size + 1 else s.buffer_size }

/-- Push the faults of a list, first to last. -/
def set_errors (fs : List Fault) (s : GlobalError) : GlobalError :=
  fs.foldl (fun acc f => set_error f acc) s

/-- Call `get_error()` (pop) `n` times: the codes returned, in call order,
and the state after. -/
def pop_n : Nat → GlobalError → List Int × GlobalError
  | 0, s => ([], s)
  | n + 1, s =>
    let r := get_error false s
    let rest := pop_n n r.2
    (r.1 :: rest.1, rest.2)

/-- The operations of the public interface that touch the queue. -/
inductive Op where
  | set (f : Fault)
  | peek
  | pop
  deriving DecidableEq, Repr

def step (s : GlobalError) : Op → GlobalError
  | .set f => set_error f s
  | .peek => (get_error true s).2
  | .pop => (get_error false s).2

/-- The state after any interleaving of the operations, from a constructed
queue. -/
def run (mem : Int → Int) (ops : List Op) : GlobalError :=
  ops.foldl step (init mem)

/-- The queue invariant: size and cursor stay inside the array bounds. -/
def Inv (s : GlobalError) : Prop :=
  0 ≤ s.buffer_size ∧ s.buffer_size ≤ MAX_BUFFER_SIZE ∧
    0 ≤ s.write_indx ∧ s.write_indx < MAX_BUFFER_SIZE

instance (s : GlobalError) : Decidable (Inv s) := by
  unfold Inv; infer_instance

/-- The pending codes, most recent first: the `buffer_size` cells behind the
write cursor. -/
def contents (s : GlobalError) : List Int :=
  (List.range s.buffer_size.toNat).map
    (fun (i : Nat) => s.error_buffer ((s.write_indx - 1 - (i : Int)) % MAX_BUFFER_SIZE))

end GlobalError

/-! ## `view_state.h` -/

/-- The enumeration `ViewState::Mode`. -/
inductive Mode where
  | NORMAL
  | FOCUS1
  | FOCUS2
  | FOCUS3
  | FOCUS4
  | ERROR
  | REMOTE
  deriving DecidableEq, Repr

/-- Conversion of a `float` to an integer type: truncation toward zero. -/
def truncToInt (x : ℚ) : Int :=
  if 0 ≤ x then ⌊x⌋ else ⌈x⌉

/-- The C library `round`: to the nearest integer, halves away from zero. -/
def c_round (x : ℚ) : ℚ :=
  if 0 ≤ x then (⌊x + 1 / 2⌋ : Int) else (⌈x - 1 / 2⌉ : Int)

/-- The public fields of `ViewState`; the arrays `volts` and `phases` are maps
from indices to cells. -/
structure ViewState where
  update : Bool
  mode : Mode
  last_mode : Mode
  volts : Int → Int
  phases : Int → Int
  freq : ℚ

namespace ViewState

def v_multipler : Int := 10

def p_multipler : Int := 100

def reset (v : ViewState) : ViewState :=
  { v with
    update := false
    mode := Mode.NORMAL
    volts := fun i => if 0 ≤ i ∧ i < 4 then 0 else v.volts i
    phases := fun i => if 0 ≤ i ∧ i < 4 then 0 else v.phases i
    freq := 50000 }

def setMode (newMode : Mode) (v : ViewState) : ViewState :=
  { v with
    update := true
    last_mode := if v.mode ≠ Mode.ERROR then v.mode else v.last_mode
    mode := newMode }

def setVolts (channel : Int) (value : ℚ) (v : ViewState) : ViewState :=
  let reduced_value := truncToInt (c_round (value * (v_multipler : ℚ)))
  { v with volts := Function.update v.volts (channel - 1) reduced_value }

end ViewState

/-! ## `model.h` -/

/-- Modelled from the spec: the calibration data of `config.h`, which is not
among the sources: the integer threshold table `dac_amp_thesholds` (tenths of
a volt), the per-channel coefficient tables `dac_amp_coeffs` (row `chan - 1`,
6 coefficients per segment), the exponent table `exps` and the
order-of-magnitude estimate `get_order`. -/
structure Config where
  dac_amp_thesholds : Nat → Int
  dac_amp_coeffs : Int → Int → ℚ
  exps : Nat → Int
  get_order : ℚ → Int

/-- A calibration table for the examples: thresholds 0 V, 1 V, 2 V, 3 V; in
every segment the final-offset coefficient is 1 and the other five are 0, so
that the tuning word of a voltage `v` is `100 * v`. -/
def Config.sample : Config :=
  { dac_amp_thesholds := fun i => 10 * (i : Int)
    dac_amp_coeffs := fun _ index => if index % 6 = 5 then 1 else 0
    exps := fun _ => 5
    get_order := fun _ => 4 }

/-- Modelled from the spec: the waveform-generator chip behind the `AD9106`
library class, as far as `Model` uses it: the DDS frequency that `getDDSfreq`
returns, the 16-bit phase register of each channel that `set_CHNL_prop` and
`get_CHNL_prop` write and read, and the writes that `set_CHNL_DGAIN` issued to
the amplitude-gain registers (channel and word, most recent first). -/
structure AD9106 where
  dds_freq : ℚ
  dds_phase : Int → Int
  dgain_writes : List (Int × Int)

namespace AD9106

def getDDSfreq (d : AD9106) : ℚ := d.dds_freq

def set_CHNL_DGAIN (chnl : Int) (val : Int) (d : AD9106) : AD9106 :=
  { d with dgain_writes := (chnl, val) :: d.dgain_writes }

/-- The call `set_CHNL_prop(DDS_PHASE, chnl, val)`. -/
def set_CHNL_prop_DDS_PHASE (chnl : Int) (val : Int) (d : AD9106) : AD9106 :=
  { d with dds_phase := Function.update d.dds_phase chnl val }

/-- The call `get_CHNL_prop(DDS_PHASE, chnl)`; the result is a `uint16_t`. -/
def get_CHNL_prop_DDS_PHASE (chnl : Int) (d : AD9106) : Int :=
  d.dds_phase chnl % 65536

/-- A chip state for the examples: 50 kHz, all phase registers zero, no gain
register written yet. -/
def idle : AD9106 :=
  { dds_freq := 50000, dds_phase := fun _ => 0, dgain_writes := [] }

end AD9106

/-- The class `Model`: its one data member is the chip. -/
structure Model where
  dac : AD9106

namespace Model

/-- The helper `round_float`; the `int` result is kept exact. -/
def round_float (num : ℚ) : Int :=
  if 0 ≤ num then truncToInt (num + 1 / 2) else truncToInt (num - 1 / 2)

/-- Conversion of an integer to `uint16_t`. -/
def toUInt16 (x : Int) : Int := x % 65536

/-- Conversion of an integer to `int16_t` (two's complement wrap-around). -/
def toInt16 (x : Int) : Int := (x + 32768) % 65536 - 32768

/-- The word `val` that `setPhase` computes from `phase`. -/
def setPhase_val (phase : ℚ) : Int :=
  let phase := if phase < 0 then phase + 360 else phase
  toUInt16 (round_float (phase * ((2 : ℚ) ^ 16 - 1) / 360))

def setPhase (chnl : Int) (phase : ℚ) (m : Model) : Model :=
  { m with dac := m.dac.set_CHNL_prop_DDS_PHASE chnl (setPhase_val phase) }

/-- The phase `getPhase` computes from the register word `reg_val`. -/
def getPhase_of (reg_val : Int) : ℚ :=
  let phase : ℚ := 360 * ((reg_val : ℚ) / ((2 : ℚ) ^ 16 - 1))
  if phase > 180 then phase - 360 else phase

def getPhase (chnl : Int) (m : Model) : ℚ :=
  getPhase_of (m.dac.get_CHNL_prop_DDS_PHASE chnl)

/-- The loop of `v_to_addr` that selects `range_index`: `6 * i` for the first
`i` in `0 .. 2` whose bounds, with the integer quotients
`dac_amp_thesholds[i] / 10`, contain the voltage, and `0` when there is
none. -/
def range_index (cfg : Config) (voltage : ℚ) : Nat :=
  match [0, 1, 2].find? (fun i =>
      decide ((((cfg.dac_amp_thesholds i).tdiv 10 : Int) : ℚ) ≤ voltage ∧
        voltage ≤ (((cfg.dac_amp_thesholds (i + 1)).tdiv 10 : Int) : ℚ))) with
  | some i => 6 * i
  | none => 0

def read_pgm_float (cfg : Config) (chan : Int) (index : Int) : ℚ :=
  cfg.dac_amp_coeffs (chan - 1) index

/-- The term that round `i` of the second loop of `v_to_addr` adds to
`freq_poly`. -/
def freq_poly_term (cfg : Config) (freq : ℚ) (chan : Int) (rangeIndex : Nat) (i : Nat) : ℚ :=
  let freq_order := cfg.get_order freq
  let order_diff : Int := (cfg.exps i - 5) - freq_order * ((i : Int) + 1)
  if -10 ≤ order_diff ∧ order_diff ≤ 10 then
    let freq_sigval := freq / (10 : ℚ) ^ freq_order
    read_pgm_float cfg chan ((rangeIndex : Int) + i) * freq_sigval ^ (i + 1) *
      (10 : ℚ) ^ (-order_diff)
  else
    0

/-- The value `addr` of `v_to_addr` before its conversion to `int16_t`. -/
def v_to_addr_float (cfg : Config) (m : Model) (voltage : ℚ) (chan : Int) : ℚ :=
  let rangeIndex := range_index cfg voltage
  let freq := m.dac.getDDSfreq
  let numerator := 100 * voltage - 10 * read_pgm_float cfg chan ((rangeIndex : Int) + 4)
  let freq_poly := ((List.range 4).map (freq_poly_term cfg freq chan rangeIndex)).sum
  numerator / (freq_poly + read_pgm_float cfg chan ((rangeIndex : Int) + 5))

def v_to_addr (cfg : Config) (m : Model) (voltage : ℚ) (chan : Int) : Int :=
  toInt16 (truncToInt (v_to_addr_float cfg m voltage chan))

/-- The method `setVoltage`, on the chip and the global `system_error`: the
returned `int` (`NULL` is `0`), the model and the queue after. -/
def setVoltage (cfg : Config) (chnl : Int) (voltage : ℚ) (m : Model)
    (system_error : GlobalError) : Int × Model × GlobalError :=
  let lower_bound : ℚ := ((cfg.dac_amp_thesholds 0 : Int) : ℚ) / 10
  let upper_bound : ℚ := ((cfg.dac_amp_thesholds 3 : Int) : ℚ) / 10
  if voltage < lower_bound ∨ voltage > upper_bound then
    (0, m, system_error.set_error (.generic .ParamOutOfRange))
  else
    let val := v_to_addr cfg m voltage chnl
    if val ≠ 0 then
      (1, { m with dac := m.dac.set_CHNL_DGAIN chnl val }, system_error)
    else
      (0, m, system_error)

end Model

/-! ## `command_handlers.h` -/

/-- The globals the command handlers act on. -/
structure System where
  system_error : GlobalError
  model : Model
  viewState : ViewState

def check_param_num (expected received : Int) (system_error : GlobalError) :
    Int × GlobalError :=
  if expected = received then
    (0, system_error)
  else if expected < received then
    (1, system_error.set_error (.generic .TooManyParams))
  else
    (1, system_error.set_error (.generic .TooFewParams))

/-- The handler `handleSetVoltage` on a tokenized request: `received` is
`params.Size()`, `chan` the numeric suffix of the command and `voltage` the
value of the first parameter. -/
def handleSetVoltage (cfg : Config) (received : Int) (chan : Int) (voltage : ℚ)
    (sys : System) : System :=
  let c := check_param_num 1 received sys.system_error
  if c.1 ≠ 0 then
    { sys with system_error := c.2 }
  else if chan < 1 ∨ chan > 4 then
    { sys with system_error := c.2.set_error (.generic .BadSuffix) }
  else
    let r := sys.model.setVoltage cfg chan voltage c.2
    if r.1 ≠ 0 then
      { system_error := r.2.2, model := r.2.1,
        viewState := sys.viewState.setVolts chan voltage }
    else
      { sys with system_error := r.2.2, model := r.2.1 }

/-- A state of the globals for the examples: a constructed queue over zeroed
cells, the idle chip and a display state after `reset`. -/
def System.sample : System :=
  { system_error := GlobalError.init fun _ => 0
    model := { dac := AD9106.idle }
    viewState :=
      { update := false, mode := Mode.NORMAL, last_mode := Mode.NORMAL
        volts := fun _ => 0, phases := fun _ => 0, freq := 50000 } }

/-- A calibration table for the examples whose thresholds are not whole
volts: 0.5 V, 1.5 V, 2.5 V, 3.5 V; the coefficients are those of
`Config.sample`. -/
def Config.halfVolts : Config :=
  { dac_amp_thesholds := fun i => 5 + 10 * (i : Int)
    dac_amp_coeffs := fun _ index => if index % 6 = 5 then 1 else 0
    exps := fun _ => 5
    get_order := fun _ => 4 }

/-- The segment `i` of a table with its true bounds, `thresholds[i] / 10` and
`thresholds[i + 1] / 10` in exact division, contains the voltage. -/
def Config.segmentContains (cfg : Config) (i : Nat) (voltage : ℚ) : Prop :=
  ((cfg.dac_amp_thesholds i : Int) : ℚ) / 10 ≤ voltage ∧
    voltage ≤ ((cfg.dac_amp_thesholds (i + 1) : Int) : ℚ) / 10

instance (cfg : Config) (i : Nat) (voltage : ℚ) :
    Decidable (cfg.segmentContains i voltage) := by
  unfold Config.segmentContains; infer_instance

namespace ViewState

/-- The constructor: `last_mode` starts as `NORMAL` and `reset()` sets every
other field. -/
def init : ViewState :=
  reset
    { update := false, mode := Mode.NORMAL, last_mode := Mode.NORMAL
      volts := fun _ => 0, phases := fun _ => 0, freq := 0 }

def getVolts (channel : Int) (v : ViewState) : ℚ :=
  (v.volts (channel - 1) : ℚ) / (v_multipler : ℚ)

def getPhase (channel : Int) (v : ViewState) : ℚ :=
  let phase : ℚ := (v.phases (channel - 1) : ℚ) / (p_multipler : ℚ)
  if phase < 0 then phase + 360 else phase

/-- The two public methods that change the mode. -/
inductive Op where
  | setMode (newMode : Mode)
  | reset
  deriving DecidableEq, Repr

def step (v : ViewState) : Op → ViewState
  | .setMode newMode => v.setMode newMode
  | .reset => v.reset

/-- The state after any sequence of `setMode` and `reset` calls, from the
constructed state. -/
def run (ops : List Op) : ViewState :=
  ops.foldl step init

end ViewState

/-! ## `lcd_view.h` -/

/-- What a refresh writes to the 16x2 display: the values printed by each of
the four renderings. -/
inductive Screen where
  | normal (cells : List (Int × Int))
  | focus (chan : Int) (freq : ℚ) (voltage : ℚ) (phase : ℚ)
  | error (code : Int) (message : Option String)
  | remote
  deriving DecidableEq

namespace LCDView

/-- The method `display_normal`: the truncated voltage and phase of the four
channels. -/
def display_normal (state : ViewState) : Screen :=
  .normal ((List.range 4).map (fun (i : Nat) =>
    (truncToInt (state.getVolts ((i : Int) + 1)), truncToInt (state.getPhase ((i : Int) + 1)))))

def display_focus (state : ViewState) : Screen :=
  let chan : Int :=
    match state.mode with
    | .FOCUS1 => 1
    | .FOCUS2 => 2
    | .FOCUS3 => 3
    | .FOCUS4 => 4
    | _ => 0
  .focus chan state.freq (state.getVolts chan) (state.getPhase chan)

/-- The method `display_error`: it calls `system_error.get_error(true)`; the
message copied into `message_buffer` is the one shown. -/
def display_error (system_error : GlobalError) : Screen × GlobalError :=
  let r := system_error.get_error true
  (.error r.1 (get_error_ptr r.1), r.2)

def display_remote : Screen := .remote

/-- The method `update`, on the globals: the globals after and the screen
written. -/
def update (sys : System) : System × Screen :=
  if sys.viewState.mode = Mode.ERROR then
    let r := display_error sys.system_error
    ({ sys with system_error := r.2, viewState := { sys.viewState with update := false } }, r.1)
  else if sys.viewState.mode = Mode.REMOTE then
    ({ sys with viewState := { sys.viewState with update := false } }, display_remote)
  else if sys.viewState.mode = Mode.NORMAL then
    ({ sys with viewState := { sys.viewState with update := false } },
      display_normal sys.viewState)
  else
    ({ sys with viewState := { sys.viewState with update := false } },
      display_focus sys.viewState)

end LCDView

/-! ## `command_handlers.h`: the last-error query -/

/-- The handler `GetLastEror` on a tokenized request: `received` is
`parameters.Size()`. The result is the globals after and the reply printed
to the interface, the code and its message, when there is one. -/
def GetLastEror (received : Int) (sys : System) : System × Option (Int × Option String) :=
  let c := check_param_num 0 received sys.system_error
  if c.1 ≠ 0 then
    ({ sys with system_error := c.2 }, none)
  else
    let r := c.2.get_error false
    let err_code := r.1
    let reply := some (err_code, get_error_ptr err_code)
    if err_code ≠ 0 then
      ({ sys with system_error := r.2,
                  viewState := sys.viewState.setMode sys.viewState.last_mode }, reply)
    else
      ({ sys with system_error := r.2 }, reply)

/-- Modelled from the spec: the report of one fault. The `ErrorHandler` that
`set_error` calls is bound in the main sketch, which is not among the
sources; as the display "shows a dedicated error screen when a fault occurs",
it enters the error screen with `viewState.setMode(Mode::ERROR)`. -/
def report_fault (f : Fault) (sys : System) : System :=
  { sys with
    system_error := sys.system_error.set_error f
    viewState := sys.viewState.setMode Mode.ERROR }

/-- Report the faults of a list, first to last. -/
def report_faults (fs : List Fault) (sys : System) : System :=
  fs.foldl (fun acc f => report_fault f acc) sys

/-! # Properties -/

/-! ## The error queue -/

namespace GlobalError

theorem Inv_init (mem : Int → Int) : Inv (init mem) := by
  simp [Inv, init, MAX_BUFFER_SIZE]

theorem tmod_five (x : Int) (h : 0 ≤ x) : x.tmod 5 = x % 5 :=
  Int.tmod_eq_emod h (by decide)

theorem last_indx_eq (s : GlobalError) (h : 0 ≤ s.write_indx) :
    s.last_indx = (s.write_indx - 1) % 5 := by
  unfold last_indx MAX_BUFFER_SIZE
  rw [tmod_five _ (by omega)]
  omega

theorem Inv_set_error (f : Fault) (s : GlobalError) (h : Inv s) : Inv (set_error f s) := by
  obtain ⟨h1, h2, h3, h4⟩ := h
  simp only [Inv, set_error, MAX_BUFFER_SIZE] at *
  rw [tmod_five _ (by omega)]
  split <;> omega

theorem Inv_get_error (read : Bool) (s : GlobalError) (h : Inv s) :
    Inv (get_error read s).2 := by
  have hl := last_indx_eq s h.2.2.1
  obtain ⟨h1, h2, h3, h4⟩ := h
  unfold get_error
  split
  · exact ⟨h1, h2, h3, h4⟩
  · cases read
    · simp only [Inv, MAX_BUFFER_SIZE, Bool.not_false, if_true] at *
      rw [hl]; omega
    · exact ⟨h1, h2, h3, h4⟩

theorem Inv_step (op : Op) (s : GlobalError) (h : Inv s) : Inv (step s op) := by
  cases op with
  | set f => exact Inv_set_error f s h
  | peek => exact Inv_get_error true s h
  | pop => exact Inv_get_error false s h

theorem Inv_foldl_step (ops : List Op) (s : GlobalError) (h : Inv s) :
    Inv (ops.foldl step s) := by
  induction ops generalizing s with
  | nil => exact h
  | cons op ops ih => exact ih (step s op) (Inv_step op s h)

theorem Inv_set_errors (fs : List Fault) (s : GlobalError) (h : Inv s) :
    Inv (set_errors fs s) := by
  induction fs generalizing s with
  | nil => exact h
  | cons f fs ih => exact ih (set_error f s) (Inv_set_error f s h)

theorem length_contents (s : GlobalError) : (contents s).length = s.buffer_size.toNat := by
  unfold contents
  rw [List.length_map, List.length_range]

/-- A push puts the new code in front of the pending ones and keeps five. -/
theorem contents_set_error (f : Fault) (s : GlobalError) (h : Inv s) :
    contents (set_error f s) = (get_error_code f :: contents s).take 5 := by
  obtain ⟨buf, size, w⟩ := s
  obtain ⟨h1, h2, h3, h4⟩ := h
  simp only [MAX_BUFFER_SIZE] at *
  interval_cases size <;> interval_cases w <;>
    simp [contents, set_error, MAX_BUFFER_SIZE, List.range_succ, Function.update, Int.tmod] <;>
    norm_num

/-- A pop returns the first pending code and leaves the others. -/
theorem get_error_pop (s : GlobalError) (h : Inv s) :
    (get_error false s).1 = (contents s).headD 0 ∧
      contents (get_error false s).2 = (contents s).tail := by
  obtain ⟨buf, size, w⟩ := s
  obtain ⟨h1, h2, h3, h4⟩ := h
  simp only [MAX_BUFFER_SIZE] at *
  interval_cases size <;> interval_cases w <;>
    simp [contents, get_error, last_indx, MAX_BUFFER_SIZE, List.range_succ, Int.tmod]

/-- A peek returns the first pending code. -/
theorem get_error_peek (s : GlobalError) (h : Inv s) :
    (get_error true s).1 = (contents s).headD 0 := by
  obtain ⟨buf, size, w⟩ := s
  obtain ⟨h1, h2, h3, h4⟩ := h
  simp only [MAX_BUFFER_SIZE] at *
  interval_cases size <;> interval_cases w <;>
    simp [contents, get_error, last_indx, MAX_BUFFER_SIZE, List.range_succ, Int.tmod]

theorem take_append_take (A B : List Int) (n : Nat) :
    (A ++ B.take n).take n = (A ++ B).take n := by
  rw [List.take_append_eq_append_take, List.take_append_eq_append_take, List.take_take]
  congr 2
  omega

theorem contents_set_errors (fs : List Fault) (s : GlobalError) (h : Inv s) :
    contents (set_errors fs s) = ((fs.reverse.map get_error_code) ++ contents s).take 5 := by
  induction fs generalizing s with
  | nil =>
    have hl := length_contents s
    have h2 := h.2.1
    simp only [MAX_BUFFER_SIZE] at h2
    simp only [set_errors, List.foldl_nil, List.reverse_nil, List.map_nil, List.nil_append]
    rw [List.take_of_length_le]
    omega
  | cons f fs ih =>
    have := ih (set_error f s) (Inv_set_error f s h)
    simp only [set_errors, List.foldl_cons] at this ⊢
    rw [this, contents_set_error f s h, take_append_take]
    simp

theorem pop_n_eq (n : Nat) (s : GlobalError) (h : Inv s) :
    (pop_n n s).1 = (List.range n).map (fun i => (contents s).getD i 0) := by
  induction n generalizing s with
  | zero => simp [pop_n]
  | succ n ih =>
    obtain ⟨h1, h2⟩ := get_error_pop s h
    have := ih (get_error false s).2 (Inv_get_error false s h)
    simp only [pop_n, this, h1, h2, List.range_succ_eq_map, List.map_cons, List.map_map]
    cases contents s <;> simp [Function.comp_def]

/-- C1: after the faults `fs` are pushed with `set_error` onto a freshly
constructed queue, the queue holds `min fs.length 5` entries, and `n` calls of
`get_error()` return, call by call, the catalog codes of the last
`min fs.length 5` pushed faults, most recent first, and `0` after that. -/
theorem set_errors_then_pop (mem : Int → Int) (fs : List Fault) (n : Nat) :
    (set_errors fs (init mem)).buffer_size = min fs.length 5 ∧
      (pop_n n (set_errors fs (init mem))).1 =
        (List.range n).map
          (fun i => ((fs.reverse.take 5).map get_error_code).getD i 0) := by
  have hI := Inv_set_errors fs (init mem) (Inv_init mem)
  have hc := contents_set_errors fs (init mem) (Inv_init mem)
  have h0 : contents (init mem) = [] := by simp [contents, init]
  rw [h0, List.append_nil] at hc
  constructor
  · have hl := length_contents (set_errors fs (init mem))
    rw [hc] at hl
    simp only [List.length_take, List.length_map, List.length_reverse] at hl
    have := hI.1
    omega
  · rw [pop_n_eq n _ hI, hc, List.map_take]

/-- C3: in every state reached from the constructed queue by any interleaving
of `set_error`, `get_error(true)` and `get_error(false)`, `buffer_size` is in
`0 .. 5`, `write_indx` (the cell `set_error` writes) is in `0 .. 4`, and
`last_indx` (the cell `get_error` reads) is in `0 .. 4`. -/
theorem run_in_bounds (mem : Int → Int) (ops : List Op) :
    0 ≤ (run mem ops).buffer_size ∧ (run mem ops).buffer_size ≤ 5 ∧
      0 ≤ (run mem ops).write_indx ∧ (run mem ops).write_indx < 5 ∧
      0 ≤ (run mem ops).last_indx ∧ (run mem ops).last_indx < 5 := by
  have h : Inv (run mem ops) := Inv_foldl_step ops (init mem) (Inv_init mem)
  have hl := last_indx_eq (run mem ops) h.2.2.1
  obtain ⟨h1, h2, h3, h4⟩ := h
  simp only [MAX_BUFFER_SIZE] at h2 h4
  refine ⟨h1, h2, h3, h4, ?_, ?_⟩ <;> omega

theorem get_error_empty (s : GlobalError) (read : Bool) (h : s.buffer_size = 0) :
    get_error read s = (0, s) := by
  simp [get_error, h]

/-- C2: `get_error(read)` on an empty queue returns `0` and changes nothing;
on a non-empty valid queue it returns the cell behind the write cursor, which
is the first pending code, with `read = true` the state is unchanged, with
`read = false` the size drops by one and the cursor rewinds by one modulo 5;
right after a push it returns the pushed code; and on a queue holding one
pushed code the first pop returns it, the second returns `0` and `is_error` is
then false. -/
theorem get_error_spec (s : GlobalError) (read : Bool) :
    (s.buffer_size = 0 → get_error read s = (0, s)) ∧
    (Inv s → s.buffer_size ≠ 0 →
      (get_error read s).1 = s.error_buffer ((s.write_indx - 1) % 5) ∧
      (get_error read s).1 = (contents s).headD 0 ∧
      (read = true → (get_error read s).2 = s) ∧
      (read = false →
        (get_error read s).2.error_buffer = s.error_buffer ∧
        (get_error read s).2.buffer_size = s.buffer_size - 1 ∧
        (get_error read s).2.write_indx = (s.write_indx - 1) % 5)) ∧
    (Inv s → ∀ f : Fault, (get_error read (set_error f s)).1 = get_error_code f) ∧
    (Inv s → s.buffer_size = 0 → ∀ f : Fault,
      (get_error false (set_error f s)).1 = get_error_code f ∧
      (get_error false (get_error false (set_error f s)).2).1 = 0 ∧
      is_error (get_error false (get_error false (set_error f s)).2).2 = false) := by
  refine ⟨get_error_empty s read, ?_, ?_, ?_⟩
  · intro hI hne
    have hl := last_indx_eq s hI.2.2.1
    have hhead : (get_error read s).1 = (contents s).headD 0 := by
      cases read
      · exact (get_error_pop s hI).1
      · exact get_error_peek s hI
    refine ⟨?_, hhead, ?_, ?_⟩
    · cases read <;> simp [get_error, hne, hl]
    · rintro rfl
      simp [get_error, hne]
    · rintro rfl
      simp [get_error, hne, hl]
  · intro hI f
    have hI2 := Inv_set_error f s hI
    have hc := contents_set_error f s hI
    cases read
    · rw [(get_error_pop _ hI2).1, hc]; simp
    · rw [get_error_peek _ hI2, hc]; simp
  · intro hI h0 f
    have hI2 := Inv_set_error f s hI
    have hc := contents_set_error f s hI
    have hs : contents s = [] := by
      apply List.eq_nil_of_length_eq_zero
      rw [length_contents, h0]; rfl
    rw [hs] at hc
    obtain ⟨p1, p2⟩ := get_error_pop _ hI2
    rw [hc] at p1 p2
    have hI3 := Inv_get_error false _ hI2
    have hsz : (get_error false (set_error f s)).2.buffer_size = 0 := by
      have hlen := length_contents (get_error false (set_error f s)).2
      rw [p2] at hlen
      have := hI3.1
      simp at hlen
      omega
    have he := get_error_empty _ false hsz
    refine ⟨by simpa using p1, ?_, ?_⟩
    · rw [he]
    · rw [he]
      simp [is_error, hsz]

/-- Witness of C2, on the constructed queue with zeroed cells (empty) and on
the same queue after `ParamOutOfRange` is pushed (one entry). -/
theorem get_error_spec_witness :
    get_error false (init fun _ => 0) = (0, init fun _ => 0) ∧
    Inv (set_error (.generic .ParamOutOfRange) (init fun _ => 0)) ∧
    (set_error (.generic .ParamOutOfRange) (init fun _ => 0)).buffer_size ≠ 0 ∧
    (get_error true (set_error (.generic .ParamOutOfRange) (init fun _ => 0))).2 =
      set_error (.generic .ParamOutOfRange) (init fun _ => 0) ∧
    (get_error true (set_error (.generic .ParamOutOfRange) (init fun _ => 0))).1 = 204 ∧
    (get_error false (set_error (.generic .ParamOutOfRange) (init fun _ => 0))).2.buffer_size
      = 1 - 1 ∧
    (get_error false (set_error (.generic .ParamOutOfRange) (init fun _ => 0))).1 = 204 ∧
    (get_error false (get_error false
      (set_error (.generic .ParamOutOfRange) (init fun _ => 0))).2).1 = 0 ∧
    is_error (get_error false (get_error false
      (set_error (.generic .ParamOutOfRange) (init fun _ => 0))).2).2 = false := by
  have hI : Inv (init fun _ => 0) := Inv_init _
  have hI1 : Inv (set_error (.generic .ParamOutOfRange) (init fun _ => 0)) :=
    Inv_set_error _ _ hI
  have hne : (set_error (.generic .ParamOutOfRange) (init fun _ => 0)).buffer_size ≠ 0 := by
    decide
  obtain ⟨ha, -, hc, hd⟩ := get_error_spec (init fun _ => 0) false
  obtain ⟨h1, h2, h3⟩ := hd hI rfl (.generic .ParamOutOfRange)
  have hpeek := (get_error_spec (set_error (.generic .ParamOutOfRange) (init fun _ => 0))
    true).2.1 hI1 hne
  have hpop := (get_error_spec (set_error (.generic .ParamOutOfRange) (init fun _ => 0))
    false).2.1 hI1 hne
  have hpk := (get_error_spec (init fun _ => 0) true).2.2.1 hI (.generic .ParamOutOfRange)
  exact ⟨ha rfl, hI1, hne, hpeek.2.2.1 rfl, hpk, (hpop.2.2.2 rfl).2.1, h1, h2, h3⟩

end GlobalError

/-! ## The error catalog -/

/-- The fourteen faults the catalog maps. -/
theorem mapped_cases (f : Fault) (hf : f.mapped = true) :
    f ∈ [Fault.scpi .UnknownCommand, .scpi .Timeout, .scpi .BufferOverflow,
      .generic .TooManyParams, .generic .TooFewParams, .generic .UnknownParam,
      .generic .ParamOutOfRange, .generic .BadSuffix,
      .ad9106 .MEM_READ_ERR, .ad9106 .ODD_ADDR_ERR, .ad9106 .PERIOD_SHORT_ERR,
      .ad9106 .DOUT_START_SHORT_ERR, .ad9106 .PAT_DLY_SHORT_ERR,
      .ad9106 .DOUT_START_LG_ERR] := by
  rcases f with e | e | e <;> cases e <;> simp_all [Fault.mapped]

/-- C4: for every fault the catalog maps, `get_error_code` is
`100 * priority + index`, the code divided by 100 is the subsystem's priority
and its remainder is the fault's 1-based table index, which lies inside the
subsystem's message table; `get_error_ptr` of the code reads the message at
that position; no other mapped fault has the same code; and
`ParamOutOfRange` gets 204 and "Out of Range". -/
theorem catalog_code_decodes (f : Fault) (hf : f.mapped = true) :
    get_error_code f = 100 * f.priority + f.tableIndex ∧
    (get_error_code f).tdiv 100 = f.priority ∧
    (get_error_code f).tmod 100 = f.tableIndex ∧
    1 ≤ f.tableIndex ∧ f.tableIndex ≤ f.messages.length ∧
    get_error_ptr (get_error_code f) = f.messages[f.tableIndex - 1]? ∧
    (∀ g : Fault, g.mapped = true → get_error_code g = get_error_code f → g = f) ∧
    get_error_code (.generic .ParamOutOfRange) = 204 ∧
    get_error_ptr 204 = some "Out of Range" := by
  have hm := mapped_cases f hf
  simp only [List.mem_cons, List.mem_singleton, List.not_mem_nil, or_false] at hm
  refine ⟨?_, ?_, ?_, ?_, ?_, ?_, ?_, by decide, by decide⟩
  · rcases hm with h | h | h | h | h | h | h | h | h | h | h | h | h | h <;> subst h <;> decide
  · rcases hm with h | h | h | h | h | h | h | h | h | h | h | h | h | h <;> subst h <;> decide
  · rcases hm with h | h | h | h | h | h | h | h | h | h | h | h | h | h <;> subst h <;> decide
  · rcases hm with h | h | h | h | h | h | h | h | h | h | h | h | h | h <;> subst h <;> decide
  · rcases hm with h | h | h | h | h | h | h | h | h | h | h | h | h | h <;> subst h <;> decide
  · rcases hm with h | h | h | h | h | h | h | h | h | h | h | h | h | h <;> subst h <;> decide
  · intro g hg hc
    have hg2 := mapped_cases g hg
    simp only [List.mem_cons, List.mem_singleton, List.not_mem_nil, or_false] at hg2
    rcases hm with h | h | h | h | h | h | h | h | h | h | h | h | h | h <;> subst h <;>
      rcases hg2 with h | h | h | h | h | h | h | h | h | h | h | h | h | h <;> subst h <;>
      first
        | rfl
        | exact absurd hc (by decide)

/-- Witness of C4, at the fault `ParamOutOfRange`. -/
theorem catalog_code_decodes_witness :
    (Fault.generic .ParamOutOfRange).mapped = true ∧
    get_error_code (.generic .ParamOutOfRange) = 100 * 2 + 4 ∧
    get_error_ptr (get_error_code (.generic .ParamOutOfRange)) = some "Out of Range" := by
  have h := catalog_code_decodes (.generic .ParamOutOfRange) rfl
  exact ⟨rfl, h.1, h.2.2.2.2.2.1⟩

/-- C7: the catalog lookup of the generic `NoError` fault, declared with the
value 0, is 200 and not 0, so pushing it stores 200 and makes `is_error` true;
the protocol-layer and hardware-driver values without a table entry do
give 0. -/
theorem get_error_code_NoError :
    GenericError.NoError.toInt = 0 ∧
    get_error_code (.generic .NoError) = 200 ∧
    (∀ mem : Int → Int,
      (GlobalError.get_error false
        (GlobalError.set_error (.generic .NoError) (GlobalError.init mem))).1 = 200 ∧
      GlobalError.is_error
        (GlobalError.set_error (.generic .NoError) (GlobalError.init mem)) = true) ∧
    (∀ raw : Nat, get_error_code (.scpi (.Unlisted raw)) = 0) ∧
    (∀ raw : Nat, get_error_code (.ad9106 (.Unlisted raw)) = 0) ∧
    get_error_code (.ad9106 .NO_ERROR) = 0 := by
  refine ⟨rfl, by decide, ?_, fun _ => rfl, fun _ => rfl, rfl⟩
  intro mem
  have hI := GlobalError.Inv_init mem
  have hc := GlobalError.contents_set_error (.generic .NoError) _ hI
  have hp := (GlobalError.get_error_pop _ (GlobalError.Inv_set_error (.generic .NoError) _ hI)).1
  rw [hc] at hp
  refine ⟨by simpa using hp, ?_⟩
  simp [GlobalError.is_error, GlobalError.set_error, GlobalError.init, MAX_BUFFER_SIZE]

/-! ## Phase conversion -/

namespace Model

theorem round_float_of_nonneg (x : ℚ) (hx : 0 ≤ x) : round_float x = ⌊x + 1 / 2⌋ := by
  have h : (0 : ℚ) ≤ x + 1 / 2 := by linarith
  unfold round_float truncToInt
  rw [if_pos hx, if_pos h]

theorem setPhase_val_of_nonneg (q : ℚ) (h0 : 0 ≤ q) (h1 : q < 360) :
    setPhase_val q = ⌊q * 65535 / 360 + 1 / 2⌋ ∧
      0 ≤ ⌊q * 65535 / 360 + 1 / 2⌋ ∧ ⌊q * 65535 / 360 + 1 / 2⌋ ≤ 65535 := by
  have hx : (0 : ℚ) ≤ q * 65535 / 360 := by positivity
  have hlo : 0 ≤ ⌊q * 65535 / 360 + 1 / 2⌋ := Int.floor_nonneg.mpr (by linarith)
  have hhi : ⌊q * 65535 / 360 + 1 / 2⌋ ≤ 65535 := by
    have hle := Int.floor_le (q * 65535 / 360 + 1 / 2)
    have : ((⌊q * 65535 / 360 + 1 / 2⌋ : Int) : ℚ) < 65536 := by linarith
    have : ⌊q * 65535 / 360 + 1 / 2⌋ < 65536 := by exact_mod_cast this
    omega
  refine ⟨?_, hlo, hhi⟩
  have hq : ¬ q < 0 := not_lt.mpr h0
  have e : ((2 : ℚ) ^ 16 - 1) = 65535 := by norm_num
  simp only [setPhase_val, hq, if_false, e, toUInt16]
  rw [round_float_of_nonneg _ hx]
  omega

theorem getPhase_setPhase (chnl : Int) (p : ℚ) (m : Model) :
    getPhase chnl (setPhase chnl p m) = getPhase_of (setPhase_val p % 65536) := by
  simp [getPhase, setPhase, AD9106.get_CHNL_prop_DDS_PHASE, AD9106.set_CHNL_prop_DDS_PHASE]

/-- C8: for every phase `p` with `-180 ≤ p ≤ 179.9`, writing `p` with
`setPhase` and reading the register back with `getPhase` gives a phase within
0.01 degrees of `p` (exact arithmetic). -/
theorem phase_round_trip (chnl : Int) (m : Model) (p : ℚ)
    (hlo : -180 ≤ p) (hhi : p ≤ 1799 / 10) :
    |getPhase chnl (setPhase chnl p m) - p| ≤ 1 / 100 := by
  rw [getPhase_setPhase]
  have e : ((2 : ℚ) ^ 16 - 1) = 65535 := by norm_num
  by_cases hp : p < 0
  · obtain ⟨hv, hn0, hn1⟩ := setPhase_val_of_nonneg (p + 360) (by linarith) (by linarith)
    have hval : setPhase_val p = ⌊(p + 360) * 65535 / 360 + 1 / 2⌋ := by
      rw [← hv]
      have h2 : ¬ p + 360 < 0 := by linarith
      simp [setPhase_val, hp, h2]
    rw [hval, Int.emod_eq_of_lt hn0 (by omega)]
    have hle := Int.floor_le ((p + 360) * 65535 / 360 + 1 / 2)
    have hlt := Int.lt_floor_add_one ((p + 360) * 65535 / 360 + 1 / 2)
    set n : Int := ⌊(p + 360) * 65535 / 360 + 1 / 2⌋ with hn
    have hbig : (180 : ℚ) < 360 * ((n : ℚ) / 65535) := by
      have h32768 : (32768 : Int) ≤ n := by
        have : ((32767 : Int) : ℚ) < (n : ℚ) := by push_cast; linarith
        have : (32767 : Int) < n := by exact_mod_cast this
        omega
      have : ((32768 : Int) : ℚ) ≤ (n : ℚ) := by exact_mod_cast h32768
      push_cast at this
      linarith
    simp only [getPhase_of, e, gt_iff_lt, hbig, if_true]
    rw [abs_le]
    constructor <;> linarith
  · have hp0 : 0 ≤ p := not_lt.mp hp
    obtain ⟨hv, hn0, hn1⟩ := setPhase_val_of_nonneg p hp0 (by linarith)
    rw [hv, Int.emod_eq_of_lt hn0 (by omega)]
    have hle := Int.floor_le (p * 65535 / 360 + 1 / 2)
    have hlt := Int.lt_floor_add_one (p * 65535 / 360 + 1 / 2)
    set n : Int := ⌊p * 65535 / 360 + 1 / 2⌋ with hn
    have hsmall : ¬ (180 : ℚ) < 360 * ((n : ℚ) / 65535) := by
      rw [not_lt]
      linarith
    simp only [getPhase_of, e, gt_iff_lt, hsmall, if_false]
    rw [abs_le]
    constructor <;> linarith

/-- Witness of C8, at the phases -180, -90, 0, 90 and 179.9 on channel 1. -/
theorem phase_round_trip_witness :
    (-180 : ℚ) ≤ -180 ∧ (-180 : ℚ) ≤ 1799 / 10 ∧
      |getPhase 1 (setPhase 1 (-180) { dac := AD9106.idle }) - (-180)| ≤ 1 / 100 ∧
      |getPhase 1 (setPhase 1 (-90) { dac := AD9106.idle }) - (-90)| ≤ 1 / 100 ∧
      |getPhase 1 (setPhase 1 0 { dac := AD9106.idle }) - 0| ≤ 1 / 100 ∧
      |getPhase 1 (setPhase 1 90 { dac := AD9106.idle }) - 90| ≤ 1 / 100 ∧
      |getPhase 1 (setPhase 1 (1799 / 10) { dac := AD9106.idle }) - 1799 / 10| ≤ 1 / 100 :=
  ⟨le_refl _, by norm_num,
    phase_round_trip 1 { dac := AD9106.idle } (-180) (le_refl _) (by norm_num),
    phase_round_trip 1 { dac := AD9106.idle } (-90) (by norm_num) (by norm_num),
    phase_round_trip 1 { dac := AD9106.idle } 0 (by norm_num) (by norm_num),
    phase_round_trip 1 { dac := AD9106.idle } 90 (by norm_num) (by norm_num),
    phase_round_trip 1 { dac := AD9106.idle } (1799 / 10) (by norm_num) (le_refl _)⟩

/-- C9, as stated, fails at the register word 65535: it reads as 360 degrees,
which `getPhase` wraps to 0, and 0 degrees converts back to the word 0. -/
theorem register_round_trip_65535 :
    getPhase_of 65535 = 0 ∧ setPhase_val (getPhase_of 65535) = 0 ∧
      ¬ |setPhase_val (getPhase_of 65535) - 65535| ≤ 1 := by
  have h1 : getPhase_of 65535 = 0 := by
    norm_num [getPhase_of]
  have h2 : setPhase_val 0 = 0 := by
    norm_num [setPhase_val, round_float, truncToInt, toUInt16]
  rw [h1, h2]
  exact ⟨rfl, rfl, by decide⟩

/-- C9, amended: for every register word `w` in `0 .. 65535`, converting `w`
to degrees with the `getPhase` formula and back with the `setPhase` formula
gives `w % 65535`: the word `w` itself up to 65534, and 0 for 65535. -/
theorem register_round_trip (w : Int) (h0 : 0 ≤ w) (h1 : w ≤ 65535) :
    setPhase_val (getPhase_of w) = w % 65535 ∧
      (w ≤ 65534 → setPhase_val (getPhase_of w) = w) := by
  have key : w ≤ 65534 → setPhase_val (getPhase_of w) = w := by
    intro hw
    have e : ((2 : ℚ) ^ 16 - 1) = 65535 := by norm_num
    have hwq0 : (0 : ℚ) ≤ (w : ℚ) := by exact_mod_cast h0
    have hwq1 : (w : ℚ) ≤ 65534 := by exact_mod_cast hw
    have hfloor : ⌊(w : ℚ) + 1 / 2⌋ = w := by
      rw [Int.floor_eq_iff]
      constructor <;> linarith
    have hround : round_float (w : ℚ) = w := by
      rw [round_float_of_nonneg _ hwq0, hfloor]
    have hmod : toUInt16 w = w := by
      unfold toUInt16
      omega
    unfold getPhase_of setPhase_val
    simp only [e]
    by_cases hbig : (360 : ℚ) * ((w : ℚ) / 65535) > 180
    · have hneg : (360 : ℚ) * ((w : ℚ) / 65535) - 360 < 0 := by linarith
      rw [if_pos hbig, if_pos hneg]
      have : ((360 : ℚ) * ((w : ℚ) / 65535) - 360 + 360) * 65535 / 360 = (w : ℚ) := by
        field_simp
        ring
      rw [this, hround, hmod]
    · have hnn : ¬ (360 : ℚ) * ((w : ℚ) / 65535) < 0 := by
        rw [not_lt]; positivity
      rw [if_neg hbig, if_neg hnn]
      have : ((360 : ℚ) * ((w : ℚ) / 65535)) * 65535 / 360 = (w : ℚ) := by
        field_simp
      rw [this, hround, hmod]
  refine ⟨?_, key⟩
  by_cases hw : w ≤ 65534
  · rw [key hw]
    omega
  · have hw2 : w = 65535 := by omega
    subst hw2
    have h1 : getPhase_of 65535 = 0 := by
      norm_num [getPhase_of]
    have h2 : setPhase_val 0 = 0 := by
      norm_num [setPhase_val, round_float, truncToInt, toUInt16]
    rw [h1, h2]
    rfl

/-- Witness of C9 amended, at the register word 32768. -/
theorem register_round_trip_witness :
    (0 : Int) ≤ 32768 ∧ (32768 : Int) ≤ 65535 ∧ (32768 : Int) ≤ 65534 ∧
      setPhase_val (getPhase_of 32768) = 32768 :=
  ⟨by decide, by decide, by decide,
    (register_round_trip 32768 (by decide) (by decide)).2 (by decide)⟩

/-- C10: for every register word `w` in `0 .. 65535`, `getPhase` returns
`360 * w / 65535` when that value is at most 180 and `360 * w / 65535 - 360`
otherwise, and the returned value lies in the interval `(-180, 180]`. -/
theorem getPhase_wraps (chnl : Int) (m : Model) (w : Int) (h0 : 0 ≤ w) (h1 : w ≤ 65535)
    (hreg : m.dac.dds_phase chnl = w) :
    ((360 : ℚ) * w / 65535 ≤ 180 → getPhase chnl m = 360 * w / 65535) ∧
    (¬ (360 : ℚ) * w / 65535 ≤ 180 → getPhase chnl m = 360 * w / 65535 - 360) ∧
    -180 < getPhase chnl m ∧ getPhase chnl m ≤ 180 := by
  have e : ((2 : ℚ) ^ 16 - 1) = 65535 := by norm_num
  have hwq0 : (0 : ℚ) ≤ (w : ℚ) := by exact_mod_cast h0
  have hwq1 : (w : ℚ) ≤ 65535 := by exact_mod_cast h1
  have hread : m.dac.get_CHNL_prop_DDS_PHASE chnl = w := by
    unfold AD9106.get_CHNL_prop_DDS_PHASE
    rw [hreg]
    omega
  have hform : (360 : ℚ) * ((w : ℚ) / 65535) = 360 * w / 65535 := by ring
  unfold getPhase getPhase_of
  rw [hread]
  simp only [e, hform]
  by_cases hbig : (360 : ℚ) * w / 65535 > 180
  · have hnot : ¬ (360 : ℚ) * w / 65535 ≤ 180 := not_le.mpr hbig
    have hle : (360 : ℚ) * w / 65535 ≤ 360 := by
      have : (360 : ℚ) * w / 65535 = (360 / 65535) * w := by ring
      rw [this]
      linarith
    rw [if_pos hbig]
    refine ⟨fun h => absurd h hnot, fun _ => rfl, by linarith, by linarith⟩
  · have hle : (360 : ℚ) * w / 65535 ≤ 180 := not_lt.mp hbig
    have hnn : (0 : ℚ) ≤ 360 * w / 65535 := by positivity
    rw [if_neg hbig]
    refine ⟨fun _ => rfl, fun h => absurd hle h, by linarith, hle⟩

/-- Witness of C10, at the register word 32768 of channel 1. -/
theorem getPhase_wraps_witness :
    (0 : Int) ≤ 32768 ∧ (32768 : Int) ≤ 65535 ∧
      -180 < getPhase 1 (setPhase 1 (-180) { dac := AD9106.idle }) ∧
      getPhase 1 (setPhase 1 (-180) { dac := AD9106.idle }) ≤ 180 := by
  have hreg : (setPhase 1 (-180) { dac := AD9106.idle }).dac.dds_phase 1 = 32768 := by
    norm_num [setPhase, AD9106.set_CHNL_prop_DDS_PHASE, setPhase_val, round_float,
      truncToInt, toUInt16, Int.floor_eq_iff]
  have h := getPhase_wraps 1 (setPhase 1 (-180) { dac := AD9106.idle }) 32768
    (by decide) (by decide) hreg
  exact ⟨by decide, by decide, h.2.2.1, h.2.2.2⟩

/-! ## Voltage requests -/

theorem setVoltage_reject (cfg : Config) (chnl : Int) (voltage : ℚ) (m : Model)
    (e : GlobalError)
    (h : voltage < ((cfg.dac_amp_thesholds 0 : Int) : ℚ) / 10 ∨
      voltage > ((cfg.dac_amp_thesholds 3 : Int) : ℚ) / 10) :
    setVoltage cfg chnl voltage m e = (0, m, e.set_error (.generic .ParamOutOfRange)) := by
  unfold setVoltage
  simp only [if_pos h]

theorem setVoltage_accept (cfg : Config) (chnl : Int) (voltage : ℚ) (m : Model)
    (e : GlobalError)
    (h : ¬ (voltage < ((cfg.dac_amp_thesholds 0 : Int) : ℚ) / 10 ∨
      voltage > ((cfg.dac_amp_thesholds 3 : Int) : ℚ) / 10)) :
    setVoltage cfg chnl voltage m e =
      if v_to_addr cfg m voltage chnl ≠ 0 then
        (1, { m with dac := m.dac.set_CHNL_DGAIN chnl (v_to_addr cfg m voltage chnl) }, e)
      else (0, m, e) := by
  unfold setVoltage
  simp only [if_neg h]

theorem setVoltage_accept_queue (cfg : Config) (chnl : Int) (voltage : ℚ) (m : Model)
    (e : GlobalError)
    (h : ¬ (voltage < ((cfg.dac_amp_thesholds 0 : Int) : ℚ) / 10 ∨
      voltage > ((cfg.dac_amp_thesholds 3 : Int) : ℚ) / 10)) :
    (setVoltage cfg chnl voltage m e).2.2 = e := by
  rw [setVoltage_accept cfg chnl voltage m e h]
  split <;> rfl

theorem range_index_sample : range_index Config.sample (3 / 2) = 6 := by
  have h0 : Int.tdiv 0 10 = 0 := by decide
  have h1 : Int.tdiv 10 10 = 1 := by decide
  have h2 : Int.tdiv 20 10 = 2 := by decide
  have h3 : Int.tdiv 30 10 = 3 := by decide
  norm_num [range_index, Config.sample, List.find?, h0, h1, h2, h3]

theorem v_to_addr_sample_zero : v_to_addr Config.sample { dac := AD9106.idle } 0 1 = 0 := by
  norm_num [v_to_addr, v_to_addr_float, range_index, read_pgm_float, freq_poly_term,
    Config.sample, toInt16, truncToInt, AD9106.getDDSfreq, AD9106.idle, List.range_succ,
    List.find?]

theorem v_to_addr_sample_mid : v_to_addr Config.sample { dac := AD9106.idle } (3 / 2) 1 = 150 := by
  simp only [v_to_addr, v_to_addr_float, range_index_sample]
  norm_num [read_pgm_float, freq_poly_term, Config.sample, toInt16, truncToInt,
    AD9106.getDDSfreq, AD9106.idle, List.range_succ]

/-- C5: `setVoltage` rejects a voltage strictly below `thresholds[0] / 10` or
strictly above `thresholds[3] / 10`: it pushes `ParamOutOfRange`, whose code
204 is then the one `get_error` returns, and leaves the chip untouched (no
gain-register write); any other voltage leaves the queue as it was; with
`thresholds[0] ≤ thresholds[3]`, the two bounds themselves are accepted and
queue no error (exact arithmetic). -/
theorem setVoltage_envelope (cfg : Config) (chnl : Int) (voltage : ℚ) (m : Model)
    (e : GlobalError) :
    (voltage < ((cfg.dac_amp_thesholds 0 : Int) : ℚ) / 10 ∨
        voltage > ((cfg.dac_amp_thesholds 3 : Int) : ℚ) / 10 →
      (setVoltage cfg chnl voltage m e).2.2 = e.set_error (.generic .ParamOutOfRange) ∧
      get_error_code (.generic .ParamOutOfRange) = 204 ∧
      (e.Inv → ((setVoltage cfg chnl voltage m e).2.2.get_error true).1 = 204) ∧
      (setVoltage cfg chnl voltage m e).2.1 = m ∧
      (setVoltage cfg chnl voltage m e).2.1.dac.dgain_writes = m.dac.dgain_writes) ∧
    (¬ (voltage < ((cfg.dac_amp_thesholds 0 : Int) : ℚ) / 10 ∨
        voltage > ((cfg.dac_amp_thesholds 3 : Int) : ℚ) / 10) →
      (setVoltage cfg chnl voltage m e).2.2 = e) ∧
    (cfg.dac_amp_thesholds 0 ≤ cfg.dac_amp_thesholds 3 →
      (setVoltage cfg chnl (((cfg.dac_amp_thesholds 0 : Int) : ℚ) / 10) m e).2.2 = e ∧
      (setVoltage cfg chnl (((cfg.dac_amp_thesholds 3 : Int) : ℚ) / 10) m e).2.2 = e) := by
  refine ⟨?_, setVoltage_accept_queue cfg chnl voltage m e, ?_⟩
  · intro h
    rw [setVoltage_reject cfg chnl voltage m e h]
    refine ⟨rfl, by decide, ?_, rfl, rfl⟩
    intro hI
    have hc := GlobalError.contents_set_error (.generic .ParamOutOfRange) e hI
    rw [GlobalError.get_error_peek _ (GlobalError.Inv_set_error _ e hI)]
    show (GlobalError.contents (e.set_error (.generic .ParamOutOfRange))).headD 0 = 204
    rw [hc]
    simp
    decide
  · intro ht
    have hq : ((cfg.dac_amp_thesholds 0 : Int) : ℚ) ≤ ((cfg.dac_amp_thesholds 3 : Int) : ℚ) := by
      exact_mod_cast ht
    have hq2 : ((cfg.dac_amp_thesholds 0 : Int) : ℚ) / 10 ≤
        ((cfg.dac_amp_thesholds 3 : Int) : ℚ) / 10 := by linarith
    constructor
    · apply setVoltage_accept_queue
      rintro (h | h)
      · exact lt_irrefl _ h
      · exact absurd hq2 (not_le.mpr h)
    · apply setVoltage_accept_queue
      rintro (h | h)
      · exact absurd hq2 (not_le.mpr h)
      · exact lt_irrefl _ h

/-- Witness of C5, with the sample table (bounds 0 V and 3 V): -50 V on
channel 1 is rejected with code 204 and no write; 3/2 V is accepted with no
error; so are the two bounds. -/
theorem setVoltage_envelope_witness :
    ((-50 : ℚ) < ((Config.sample.dac_amp_thesholds 0 : Int) : ℚ) / 10 ∨
      (-50 : ℚ) > ((Config.sample.dac_amp_thesholds 3 : Int) : ℚ) / 10) ∧
    (setVoltage Config.sample 1 (-50) { dac := AD9106.idle } (GlobalError.init fun _ => 0)).2.2
      = (GlobalError.init fun _ => 0).set_error (.generic .ParamOutOfRange) ∧
    ((setVoltage Config.sample 1 (-50) { dac := AD9106.idle }
      (GlobalError.init fun _ => 0)).2.2.get_error true).1 = 204 ∧
    (setVoltage Config.sample 1 (-50) { dac := AD9106.idle }
      (GlobalError.init fun _ => 0)).2.1.dac.dgain_writes = [] ∧
    ¬ ((3 / 2 : ℚ) < ((Config.sample.dac_amp_thesholds 0 : Int) : ℚ) / 10 ∨
      (3 / 2 : ℚ) > ((Config.sample.dac_amp_thesholds 3 : Int) : ℚ) / 10) ∧
    (setVoltage Config.sample 1 (3 / 2) { dac := AD9106.idle }
      (GlobalError.init fun _ => 0)).2.2 = (GlobalError.init fun _ => 0) ∧
    Config.sample.dac_amp_thesholds 0 ≤ Config.sample.dac_amp_thesholds 3 ∧
    (setVoltage Config.sample 1 (((Config.sample.dac_amp_thesholds 0 : Int) : ℚ) / 10)
      { dac := AD9106.idle } (GlobalError.init fun _ => 0)).2.2 = (GlobalError.init fun _ => 0) ∧
    (setVoltage Config.sample 1 (((Config.sample.dac_amp_thesholds 3 : Int) : ℚ) / 10)
      { dac := AD9106.idle } (GlobalError.init fun _ => 0)).2.2 = (GlobalError.init fun _ => 0) := by
  have hout : ((-50 : ℚ) < ((Config.sample.dac_amp_thesholds 0 : Int) : ℚ) / 10 ∨
      (-50 : ℚ) > ((Config.sample.dac_amp_thesholds 3 : Int) : ℚ) / 10) := by
    left
    norm_num [Config.sample]
  have hin : ¬ ((3 / 2 : ℚ) < ((Config.sample.dac_amp_thesholds 0 : Int) : ℚ) / 10 ∨
      (3 / 2 : ℚ) > ((Config.sample.dac_amp_thesholds 3 : Int) : ℚ) / 10) := by
    norm_num [Config.sample]
  have hmono : Config.sample.dac_amp_thesholds 0 ≤ Config.sample.dac_amp_thesholds 3 := by
    simp [Config.sample]
  have h1 := (setVoltage_envelope Config.sample 1 (-50) { dac := AD9106.idle }
    (GlobalError.init fun _ => 0)).1 hout
  have h2 := (setVoltage_envelope Config.sample 1 (3 / 2) { dac := AD9106.idle }
    (GlobalError.init fun _ => 0)).2.1 hin
  have h3 := (setVoltage_envelope Config.sample 1 (3 / 2) { dac := AD9106.idle }
    (GlobalError.init fun _ => 0)).2.2 hmono
  exact ⟨hout, h1.1, h1.2.2.1 (GlobalError.Inv_init _), h1.2.2.2.2, hin, h2, hmono,
    h3.1, h3.2⟩

end Model

theorem handleSetVoltage_valid (cfg : Config) (chan : Int) (voltage : ℚ) (sys : System)
    (hc1 : 1 ≤ chan) (hc4 : chan ≤ 4) :
    handleSetVoltage cfg 1 chan voltage sys =
      if (sys.model.setVoltage cfg chan voltage sys.system_error).1 ≠ 0 then
        { system_error := (sys.model.setVoltage cfg chan voltage sys.system_error).2.2
          model := (sys.model.setVoltage cfg chan voltage sys.system_error).2.1
          viewState := sys.viewState.setVolts chan voltage }
      else
        { sys with
          system_error := (sys.model.setVoltage cfg chan voltage sys.system_error).2.2
          model := (sys.model.setVoltage cfg chan voltage sys.system_error).2.1 } := by
  have hch : ¬ (chan < 1 ∨ chan > 4) := by omega
  simp only [handleSetVoltage, check_param_num, if_true, ne_eq, not_true_eq_false, if_false,
    if_neg hch]

/-- C6, as stated, fails: with the sample table, a request for 0 V on channel
1 is inside the envelope and converts to the tuning word 0; the handler then
writes no gain register and pushes no error. -/
theorem handleSetVoltage_word_zero :
    ¬ ((0 : ℚ) < ((Config.sample.dac_amp_thesholds 0 : Int) : ℚ) / 10 ∨
      (0 : ℚ) > ((Config.sample.dac_amp_thesholds 3 : Int) : ℚ) / 10) ∧
    Model.v_to_addr Config.sample System.sample.model 0 1 = 0 ∧
    (handleSetVoltage Config.sample 1 1 0 System.sample).model.dac.dgain_writes = [] ∧
    (handleSetVoltage Config.sample 1 1 0 System.sample).system_error.buffer_size = 0 ∧
    (handleSetVoltage Config.sample 1 1 0 System.sample).system_error.is_error = false := by
  have hin : ¬ ((0 : ℚ) < ((Config.sample.dac_amp_thesholds 0 : Int) : ℚ) / 10 ∨
      (0 : ℚ) > ((Config.sample.dac_amp_thesholds 3 : Int) : ℚ) / 10) := by
    norm_num [Config.sample]
  have hw : Model.v_to_addr Config.sample System.sample.model 0 1 = 0 :=
    Model.v_to_addr_sample_zero
  have hs : Model.setVoltage Config.sample 1 0 System.sample.model System.sample.system_error
      = (0, System.sample.model, System.sample.system_error) := by
    rw [Model.setVoltage_accept _ _ _ _ _ hin, hw]
    simp
  rw [handleSetVoltage_valid _ _ _ _ (by decide) (by decide), hs]
  exact ⟨hin, hw, rfl, rfl, rfl⟩

/-- C6, amended: for every set-voltage request with one parameter and a
channel in `1 .. 4`: a voltage outside the envelope pushes `ParamOutOfRange`
and leaves the chip untouched; a voltage inside it whose tuning word is not 0
writes that word to the channel's gain register and leaves the queue as it
was; a voltage inside it whose tuning word is 0 leaves both the chip and the
queue as they were. -/
theorem handleSetVoltage_outcomes (cfg : Config) (chan : Int) (voltage : ℚ) (sys : System)
    (hc1 : 1 ≤ chan) (hc4 : chan ≤ 4) :
    (voltage < ((cfg.dac_amp_thesholds 0 : Int) : ℚ) / 10 ∨
        voltage > ((cfg.dac_amp_thesholds 3 : Int) : ℚ) / 10 →
      (handleSetVoltage cfg 1 chan voltage sys).system_error =
        sys.system_error.set_error (.generic .ParamOutOfRange) ∧
      (handleSetVoltage cfg 1 chan voltage sys).model = sys.model) ∧
    (¬ (voltage < ((cfg.dac_amp_thesholds 0 : Int) : ℚ) / 10 ∨
        voltage > ((cfg.dac_amp_thesholds 3 : Int) : ℚ) / 10) →
      (Model.v_to_addr cfg sys.model voltage chan ≠ 0 →
        (handleSetVoltage cfg 1 chan voltage sys).model.dac.dgain_writes =
          (chan, Model.v_to_addr cfg sys.model voltage chan) :: sys.model.dac.dgain_writes ∧
        (handleSetVoltage cfg 1 chan voltage sys).system_error = sys.system_error) ∧
      (Model.v_to_addr cfg sys.model voltage chan = 0 →
        (handleSetVoltage cfg 1 chan voltage sys).model = sys.model ∧
        (handleSetVoltage cfg 1 chan voltage sys).system_error = sys.system_error)) := by
  rw [handleSetVoltage_valid cfg chan voltage sys hc1 hc4]
  constructor
  · intro h
    rw [Model.setVoltage_reject cfg chan voltage sys.model sys.system_error h]
    simp
  · intro h
    rw [Model.setVoltage_accept cfg chan voltage sys.model sys.system_error h]
    constructor
    · intro hw
      rw [if_pos hw]
      simp [AD9106.set_CHNL_DGAIN]
    · intro hw
      have : ¬ Model.v_to_addr cfg sys.model voltage chan ≠ 0 := not_not.mpr hw
      rw [if_neg this]
      simp

/-- Witness of C6 amended, with the sample table on channel 1: 3/2 V writes
the word 150, -50 V pushes `ParamOutOfRange`, and 0 V (word 0) does
neither. -/
theorem handleSetVoltage_outcomes_witness :
    (handleSetVoltage Config.sample 1 1 (3 / 2) System.sample).model.dac.dgain_writes =
      [(1, 150)] ∧
    (handleSetVoltage Config.sample 1 1 (3 / 2) System.sample).system_error =
      System.sample.system_error ∧
    (handleSetVoltage Config.sample 1 1 (-50) System.sample).system_error =
      System.sample.system_error.set_error (.generic .ParamOutOfRange) ∧
    (handleSetVoltage Config.sample 1 1 (-50) System.sample).model = System.sample.model ∧
    (handleSetVoltage Config.sample 1 1 0 System.sample).model = System.sample.model ∧
    (handleSetVoltage Config.sample 1 1 0 System.sample).system_error =
      System.sample.system_error := by
  have hin : ¬ ((3 / 2 : ℚ) < ((Config.sample.dac_amp_thesholds 0 : Int) : ℚ) / 10 ∨
      (3 / 2 : ℚ) > ((Config.sample.dac_amp_thesholds 3 : Int) : ℚ) / 10) := by
    norm_num [Config.sample]
  have hin0 : ¬ ((0 : ℚ) < ((Config.sample.dac_amp_thesholds 0 : Int) : ℚ) / 10 ∨
      (0 : ℚ) > ((Config.sample.dac_amp_thesholds 3 : Int) : ℚ) / 10) := by
    norm_num [Config.sample]
  have hout : ((-50 : ℚ) < ((Config.sample.dac_amp_thesholds 0 : Int) : ℚ) / 10 ∨
      (-50 : ℚ) > ((Config.sample.dac_amp_thesholds 3 : Int) : ℚ) / 10) := by
    left
    norm_num [Config.sample]
  have hw : Model.v_to_addr Config.sample System.sample.model (3 / 2) 1 = 150 :=
    Model.v_to_addr_sample_mid
  have hw0 : Model.v_to_addr Config.sample System.sample.model 0 1 = 0 :=
    Model.v_to_addr_sample_zero
  have h1 := ((handleSetVoltage_outcomes Config.sample 1 (3 / 2) System.sample
    (by decide) (by decide)).2 hin).1 (by rw [hw]; decide)
  have h2 := (handleSetVoltage_outcomes Config.sample 1 (-50) System.sample
    (by decide) (by decide)).1 hout
  have h3 := ((handleSetVoltage_outcomes Config.sample 1 0 System.sample
    (by decide) (by decide)).2 hin0).2 hw0
  rw [hw] at h1
  exact ⟨h1.1, h1.2, h2.1, h2.2, h3.1, h3.2⟩

/-! ## The display-mode state machine -/

namespace ViewState

theorem last_mode_step (op : Op) (v : ViewState) (h : v.last_mode ≠ Mode.ERROR) :
    (step v op).last_mode ≠ Mode.ERROR := by
  cases op with
  | setMode newMode =>
    simp only [step, setMode]
    split
    · assumption
    · exact h
  | reset => exact h

theorem last_mode_foldl_step (ops : List Op) (v : ViewState) (h : v.last_mode ≠ Mode.ERROR) :
    (ops.foldl step v).last_mode ≠ Mode.ERROR := by
  induction ops generalizing v with
  | nil => exact h
  | cons op ops ih => exact ih (step v op) (last_mode_step op v h)

/-- C13: `setMode(m)` sets `mode` to `m` and the update flag to true, sets
`last_mode` to the previous mode when that was not `ERROR` and leaves it
unchanged when it was; the constructed state has mode and `last_mode`
`NORMAL`, and in every state reached from it by `setMode` and `reset` calls
`last_mode` is not `ERROR`. -/
theorem setMode_spec (v : ViewState) (newMode : Mode) :
    (v.setMode newMode).mode = newMode ∧
    (v.setMode newMode).update = true ∧
    (v.mode ≠ Mode.ERROR → (v.setMode newMode).last_mode = v.mode) ∧
    (v.mode = Mode.ERROR → (v.setMode newMode).last_mode = v.last_mode) ∧
    init.mode = Mode.NORMAL ∧ init.last_mode = Mode.NORMAL ∧
    (∀ ops : List Op, (run ops).last_mode ≠ Mode.ERROR) := by
  refine ⟨rfl, rfl, ?_, ?_, rfl, rfl, ?_⟩
  · intro h
    simp [setMode, h]
  · intro h
    simp [setMode, h]
  · intro ops
    exact last_mode_foldl_step ops init (by decide)

/-- Witness of C13: `setMode(ERROR)` from the constructed state (mode
`NORMAL`) remembers `NORMAL`, and a `setMode(FOCUS2)` that follows, from mode
`ERROR`, keeps it. -/
theorem setMode_spec_witness :
    init.mode ≠ Mode.ERROR ∧
    (init.setMode Mode.ERROR).last_mode = init.mode ∧
    (init.setMode Mode.ERROR).mode = Mode.ERROR ∧
    ((init.setMode Mode.ERROR).setMode Mode.FOCUS2).last_mode =
      (init.setMode Mode.ERROR).last_mode ∧
    (run [.setMode Mode.ERROR, .reset, .setMode Mode.FOCUS1]).last_mode ≠ Mode.ERROR := by
  have hne : init.mode ≠ Mode.ERROR := by decide
  have h1 := setMode_spec init Mode.ERROR
  have h2 := setMode_spec (init.setMode Mode.ERROR) Mode.FOCUS2
  exact ⟨hne, h1.2.2.1 hne, h1.1, h2.2.2.2.1 h1.1, h1.2.2.2.2.2.2 _⟩

end ViewState

/-! ## The error screen and its acknowledgement -/

theorem report_faults_system_error (fs : List Fault) (sys : System) :
    (report_faults fs sys).system_error = sys.system_error.set_errors fs := by
  induction fs generalizing sys with
  | nil => rfl
  | cons f fs ih =>
    simp only [report_faults, List.foldl_cons, GlobalError.set_errors] at ih ⊢
    rw [ih (report_fault f sys)]
    rfl

theorem report_faults_viewState (m : Mode) (hm : m ≠ Mode.ERROR) (fs : List Fault)
    (sys : System)
    (h : sys.viewState.mode = m ∨
      (sys.viewState.mode = Mode.ERROR ∧ sys.viewState.last_mode = m)) :
    (report_faults fs sys).viewState.mode = m ∨
      ((report_faults fs sys).viewState.mode = Mode.ERROR ∧
        (report_faults fs sys).viewState.last_mode = m) := by
  induction fs generalizing sys with
  | nil => exact h
  | cons f fs ih =>
    simp only [report_faults, List.foldl_cons] at ih ⊢
    apply ih (report_fault f sys)
    right
    refine ⟨rfl, ?_⟩
    rcases h with h | ⟨h1, h2⟩
    · simp [report_fault, ViewState.setMode, h, hm]
    · simp [report_fault, ViewState.setMode, h1, h2]

theorem report_faults_append (fs : List Fault) (f : Fault) (sys : System) :
    report_faults (fs ++ [f]) sys = report_fault f (report_faults fs sys) := by
  simp [report_faults, List.foldl_append]

theorem GetLastEror_zero (sys : System) :
    GetLastEror 0 sys =
      if (sys.system_error.get_error false).1 ≠ 0 then
        ({ sys with
            system_error := (sys.system_error.get_error false).2
            viewState := sys.viewState.setMode sys.viewState.last_mode },
          some ((sys.system_error.get_error false).1,
            get_error_ptr (sys.system_error.get_error false).1))
      else
        ({ sys with system_error := (sys.system_error.get_error false).2 },
          some ((sys.system_error.get_error false).1,
            get_error_ptr (sys.system_error.get_error false).1)) := by
  simp only [GetLastEror, check_param_num, if_true, ne_eq, not_true_eq_false, if_false]

/-- C11, as stated, fails: after `ParamOutOfRange` is reported on the sample
state the mode is `ERROR` and the queue holds one entry; one `update` leaves
the entry in the queue and the mode in `ERROR`. -/
theorem update_keeps_error_entry :
    (report_fault (.generic .ParamOutOfRange) System.sample).viewState.mode = Mode.ERROR ∧
    (report_fault (.generic .ParamOutOfRange) System.sample).viewState.last_mode =
      Mode.NORMAL ∧
    (report_fault (.generic .ParamOutOfRange) System.sample).system_error.buffer_size = 1 ∧
    (LCDView.update
      (report_fault (.generic .ParamOutOfRange) System.sample)).1.system_error.buffer_size
      = 1 ∧
    (LCDView.update
      (report_fault (.generic .ParamOutOfRange) System.sample)).1.viewState.mode
      = Mode.ERROR := by
  refine ⟨rfl, rfl, by decide, by decide, by decide⟩

/-- C11, amended: in every state whose mode is `ERROR` and whose queue is
valid and non-empty, one `update` shows the most recent code with its message
and removes nothing: the queue and the chip are unchanged, the mode stays
`ERROR`, `last_mode` is unchanged, and the update flag is cleared. -/
theorem update_in_error_mode (sys : System)
    (hmode : sys.viewState.mode = Mode.ERROR)
    (hI : sys.system_error.Inv) (hne : sys.system_error.buffer_size ≠ 0) :
    (LCDView.update sys).1.system_error = sys.system_error ∧
    (LCDView.update sys).1.model = sys.model ∧
    (LCDView.update sys).1.viewState.mode = Mode.ERROR ∧
    (LCDView.update sys).1.viewState.last_mode = sys.viewState.last_mode ∧
    (LCDView.update sys).1.viewState.update = false ∧
    (LCDView.update sys).2 =
      Screen.error (sys.system_error.contents.headD 0)
        (get_error_ptr (sys.system_error.contents.headD 0)) := by
  have hpeek := GlobalError.get_error_peek sys.system_error hI
  have hst : (sys.system_error.get_error true).2 = sys.system_error := by
    simp [GlobalError.get_error, hne]
  refine ⟨?_, ?_, ?_, ?_, ?_, ?_⟩ <;>
    simp [LCDView.update, hmode, LCDView.display_error, hst, hpeek]

/-- Witness of C11 amended, on the sample state after `ParamOutOfRange` is
reported: the screen shows 204 "Out of Range" and the queue still holds its
entry. -/
theorem update_in_error_mode_witness :
    (report_fault (.generic .ParamOutOfRange) System.sample).viewState.mode = Mode.ERROR ∧
    (report_fault (.generic .ParamOutOfRange) System.sample).system_error.Inv ∧
    (report_fault (.generic .ParamOutOfRange) System.sample).system_error.buffer_size ≠ 0 ∧
    (LCDView.update (report_fault (.generic .ParamOutOfRange) System.sample)).1.system_error =
      (report_fault (.generic .ParamOutOfRange) System.sample).system_error ∧
    (LCDView.update (report_fault (.generic .ParamOutOfRange) System.sample)).1.viewState.mode =
      Mode.ERROR ∧
    (LCDView.update (report_fault (.generic .ParamOutOfRange) System.sample)).2 =
      Screen.error 204 (some "Out of Range") := by
  have hI : (report_fault (.generic .ParamOutOfRange) System.sample).system_error.Inv :=
    GlobalError.Inv_set_error _ _ (GlobalError.Inv_init _)
  have hne :
      (report_fault (.generic .ParamOutOfRange) System.sample).system_error.buffer_size ≠ 0 := by
    decide
  have hc : (report_fault (.generic .ParamOutOfRange) System.sample).system_error.contents
      = [204] := by
    have := GlobalError.contents_set_error (.generic .ParamOutOfRange)
      (GlobalError.init fun _ => 0) (GlobalError.Inv_init _)
    simpa [report_fault, System.sample, GlobalError.contents, GlobalError.init,
      get_error_code, GenericError.get_error_code, GENERIC_PRIORITY] using this
  have h := update_in_error_mode (report_fault (.generic .ParamOutOfRange) System.sample)
    rfl hI hne
  rw [hc] at h
  exact ⟨rfl, hI, hne, h.1, h.2.2.1, by simpa using h.2.2.2.2.2⟩

/-- C12: from a mode `m` other than `ERROR` and a valid queue, after the
faults `fs` and then `f` are reported (each one pushes its code and calls
`setMode(ERROR)`), the mode is `ERROR`; `GetLastEror` with zero parameters
then replies with the code of `f`, the most recent one, and its message, pops
it, and, when that code is not 0, leaves the mode at `m`. On an empty queue
the query replies 0 "No Error" and changes nothing. -/
theorem GetLastEror_restores_mode (sys : System) (m : Mode) (fs : List Fault) (f : Fault)
    (hm : m ≠ Mode.ERROR) (hmode : sys.viewState.mode = m) (hI : sys.system_error.Inv) :
    (report_faults (fs ++ [f]) sys).viewState.mode = Mode.ERROR ∧
    (GetLastEror 0 (report_faults (fs ++ [f]) sys)).2 =
      some (get_error_code f, get_error_ptr (get_error_code f)) ∧
    (GetLastEror 0 (report_faults (fs ++ [f]) sys)).1.system_error =
      ((report_faults (fs ++ [f]) sys).system_error.get_error false).2 ∧
    (get_error_code f ≠ 0 →
      (GetLastEror 0 (report_faults (fs ++ [f]) sys)).1.viewState.mode = m) ∧
    (∀ sys0 : System, sys0.system_error.buffer_size = 0 →
      (GetLastEror 0 sys0).2 = some (0, some "No Error") ∧
      (GetLastEror 0 sys0).1 = sys0) := by
  have hview := report_faults_viewState m hm fs sys (Or.inl hmode)
  have hq := report_faults_system_error fs sys
  have hIq : (report_faults fs sys).system_error.Inv := by
    rw [hq]; exact GlobalError.Inv_set_errors fs _ hI
  have hlast : (report_faults (fs ++ [f]) sys).viewState.last_mode = m := by
    rw [report_faults_append]
    rcases hview with h | ⟨h1, h2⟩
    · simp [report_fault, ViewState.setMode, h, hm]
    · simp [report_fault, ViewState.setMode, h1, h2]
  have hmodeE : (report_faults (fs ++ [f]) sys).viewState.mode = Mode.ERROR := by
    rw [report_faults_append]; rfl
  have hpop : ((report_faults (fs ++ [f]) sys).system_error.get_error false).1 =
      get_error_code f := by
    rw [report_faults_append]
    show (((report_faults fs sys).system_error.set_error f).get_error false).1 = _
    rw [(GlobalError.get_error_pop _ (GlobalError.Inv_set_error f _ hIq)).1,
      GlobalError.contents_set_error f _ hIq]
    simp
  refine ⟨hmodeE, ?_, ?_, ?_, ?_⟩
  · rw [GetLastEror_zero, hpop]
    split <;> rfl
  · rw [GetLastEror_zero]
    split <;> rfl
  · intro hcode
    rw [GetLastEror_zero, hpop, if_pos hcode]
    show ((report_faults (fs ++ [f]) sys).viewState.setMode
      (report_faults (fs ++ [f]) sys).viewState.last_mode).mode = m
    rw [hlast]
    rfl
  · intro sys0 h0
    have hp : get_error_ptr 0 = some "No Error" := by decide
    rw [GetLastEror_zero, GlobalError.get_error_empty _ false h0, if_neg (by simp)]
    refine ⟨?_, rfl⟩
    show some ((0 : Int), get_error_ptr 0) = _
    rw [hp]

/-- Witness of C12, on the sample state (mode `NORMAL`): after `BadSuffix` and
then `ParamOutOfRange` are reported, the query replies 204 "Out of Range" and
the mode is `NORMAL` again. -/
theorem GetLastEror_restores_mode_witness :
    Mode.NORMAL ≠ Mode.ERROR ∧ System.sample.viewState.mode = Mode.NORMAL ∧
    System.sample.system_error.Inv ∧
    get_error_code (.generic .ParamOutOfRange) ≠ 0 ∧
    (GetLastEror 0 (report_faults ([.generic .BadSuffix] ++ [.generic .ParamOutOfRange])
      System.sample)).2 = some (204, some "Out of Range") ∧
    (GetLastEror 0 (report_faults ([.generic .BadSuffix] ++ [.generic .ParamOutOfRange])
      System.sample)).1.viewState.mode = Mode.NORMAL ∧
    (GetLastEror 0 System.sample).2 = some (0, some "No Error") := by
  have hI : System.sample.system_error.Inv := GlobalError.Inv_init _
  have hc : get_error_code (.generic .ParamOutOfRange) ≠ 0 := by decide
  have h := GetLastEror_restores_mode System.sample Mode.NORMAL [.generic .BadSuffix]
    (.generic .ParamOutOfRange) (by decide) rfl hI
  have hr : some (get_error_code (.generic .ParamOutOfRange),
      get_error_ptr (get_error_code (.generic .ParamOutOfRange))) =
      some (204, some "Out of Range") := by decide
  exact ⟨by decide, rfl, hI, hc, h.2.1.trans hr, h.2.2.2.1 hc,
    (h.2.2.2.2 System.sample rfl).1⟩

/-! ## The return value of `setVoltage` and the segment selection -/

namespace Model

/-- C14: the code does the opposite of the claim. For every table, channel,
voltage and state, `setVoltage` returns 0 when it wrote no gain register and
1 when it wrote one; with the sample table, 3/2 V on channel 1 writes the
word 150 and returns 1, while -50 V and 0 V write nothing and return 0. -/
theorem setVoltage_return_value (cfg : Config) (chnl : Int) (voltage : ℚ) (m : Model)
    (e : GlobalError) :
    (setVoltage cfg chnl voltage m e).1 =
      (if (setVoltage cfg chnl voltage m e).2.1.dac.dgain_writes = m.dac.dgain_writes
        then 0 else 1) ∧
    (setVoltage Config.sample 1 (3 / 2) { dac := AD9106.idle }
      (GlobalError.init fun _ => 0)).1 = 1 ∧
    (setVoltage Config.sample 1 (3 / 2) { dac := AD9106.idle }
      (GlobalError.init fun _ => 0)).2.1.dac.dgain_writes = [(1, 150)] ∧
    (setVoltage Config.sample 1 (-50) { dac := AD9106.idle }
      (GlobalError.init fun _ => 0)).1 = 0 ∧
    (setVoltage Config.sample 1 (-50) { dac := AD9106.idle }
      (GlobalError.init fun _ => 0)).2.1.dac.dgain_writes = [] ∧
    (setVoltage Config.sample 1 0 { dac := AD9106.idle }
      (GlobalError.init fun _ => 0)).1 = 0 ∧
    (setVoltage Config.sample 1 0 { dac := AD9106.idle }
      (GlobalError.init fun _ => 0)).2.1.dac.dgain_writes = [] := by
  have hmid : ¬ ((3 / 2 : ℚ) < ((Config.sample.dac_amp_thesholds 0 : Int) : ℚ) / 10 ∨
      (3 / 2 : ℚ) > ((Config.sample.dac_amp_thesholds 3 : Int) : ℚ) / 10) := by
    norm_num [Config.sample]
  have hzero : ¬ ((0 : ℚ) < ((Config.sample.dac_amp_thesholds 0 : Int) : ℚ) / 10 ∨
      (0 : ℚ) > ((Config.sample.dac_amp_thesholds 3 : Int) : ℚ) / 10) := by
    norm_num [Config.sample]
  have hout : ((-50 : ℚ) < ((Config.sample.dac_amp_thesholds 0 : Int) : ℚ) / 10 ∨
      (-50 : ℚ) > ((Config.sample.dac_amp_thesholds 3 : Int) : ℚ) / 10) := by
    left
    norm_num [Config.sample]
  refine ⟨?_, ?_, ?_, ?_, ?_, ?_, ?_⟩
  · by_cases h : voltage < ((cfg.dac_amp_thesholds 0 : Int) : ℚ) / 10 ∨
        voltage > ((cfg.dac_amp_thesholds 3 : Int) : ℚ) / 10
    · rw [setVoltage_reject cfg chnl voltage m e h]
      simp
    · rw [setVoltage_accept cfg chnl voltage m e h]
      by_cases hw : v_to_addr cfg m voltage chnl ≠ 0
      · rw [if_pos hw]
        simp [AD9106.set_CHNL_DGAIN]
      · rw [if_neg hw]
        simp
  · rw [setVoltage_accept _ _ _ _ _ hmid, v_to_addr_sample_mid]
    rfl
  · rw [setVoltage_accept _ _ _ _ _ hmid, v_to_addr_sample_mid]
    rfl
  · rw [setVoltage_reject _ _ _ _ _ hout]
  · rw [setVoltage_reject _ _ _ _ _ hout]
    rfl
  · rw [setVoltage_accept _ _ _ _ _ hzero, v_to_addr_sample_zero]
    rfl
  · rw [setVoltage_accept _ _ _ _ _ hzero, v_to_addr_sample_zero]
    rfl

/-- C15: the code selects a wrong segment. With the strictly increasing
thresholds 5, 15, 25, 35 (0.5 V .. 3.5 V), the voltage 6/5 passes the envelope
check of `setVoltage`; `v_to_addr` compares it with the integer quotients 0,
1, 2, 3 and selects segment 1 (`range_index` 6), whose true bounds 1.5 V and
2.5 V do not contain it, while those of segment 0 do. The voltage 16/5
matches no segment and falls back to segment 0, although segment 2 holds
it. -/
theorem range_index_wrong_segment :
    (Config.halfVolts.dac_amp_thesholds 0 < Config.halfVolts.dac_amp_thesholds 1 ∧
      Config.halfVolts.dac_amp_thesholds 1 < Config.halfVolts.dac_amp_thesholds 2 ∧
      Config.halfVolts.dac_amp_thesholds 2 < Config.halfVolts.dac_amp_thesholds 3) ∧
    ¬ ((6 / 5 : ℚ) < ((Config.halfVolts.dac_amp_thesholds 0 : Int) : ℚ) / 10 ∨
      (6 / 5 : ℚ) > ((Config.halfVolts.dac_amp_thesholds 3 : Int) : ℚ) / 10) ∧
    range_index Config.halfVolts (6 / 5) = 6 * 1 ∧
    ¬ Config.halfVolts.segmentContains 1 (6 / 5) ∧
    Config.halfVolts.segmentContains 0 (6 / 5) ∧
    ¬ ((16 / 5 : ℚ) < ((Config.halfVolts.dac_amp_thesholds 0 : Int) : ℚ) / 10 ∨
      (16 / 5 : ℚ) > ((Config.halfVolts.dac_amp_thesholds 3 : Int) : ℚ) / 10) ∧
    range_index Config.halfVolts (16 / 5) = 6 * 0 ∧
    ¬ Config.halfVolts.segmentContains 0 (16 / 5) ∧
    Config.halfVolts.segmentContains 2 (16 / 5) := by
  have h0 : Int.tdiv 5 10 = 0 := by decide
  have h1 : Int.tdiv 15 10 = 1 := by decide
  have h2 : Int.tdiv 25 10 = 2 := by decide
  have h3 : Int.tdiv 35 10 = 3 := by decide
  refine ⟨by decide, ?_, ?_, ?_, ?_, ?_, ?_, ?_, ?_⟩
  · norm_num [Config.halfVolts]
  · norm_num [range_index, Config.halfVolts, List.find?, h0, h1, h2, h3]
  · norm_num [Config.segmentContains, Config.halfVolts]
  · norm_num [Config.segmentContains, Config.halfVolts]
  · norm_num [Config.halfVolts]
  · norm_num [range_index, Config.halfVolts, List.find?, h0, h1, h2, h3]
  · norm_num [Config.segmentContains, Config.halfVolts]
  · norm_num [Config.segmentContains, Config.halfVolts]

end Model

end TempDriver
